import Mathlib

/-!
Verification development for the `phoenix-api-js-client` browser API client
(`src/index.js`).  The JavaScript class `PhoenixApiClient` is shallowly
embedded: each method becomes an executable Lean function over an explicit
client state (`Client`), an explicit external world (`World`: storage,
scripted HTTP responses, fired listener events, armed timers), and explicit
clock values.  JavaScript exceptions are modelled with `Except`; machine
integers fit in `Int`/`Nat` since the quantities involved (epoch millis,
HTTP statuses) never overflow JavaScript numbers.
-/

set_option maxRecDepth 8000

namespace PhoenixApiClient

/-! ## Pagination aggregator (`get_list_all`)

`get_list_all` repeatedly drives the paged `get_list` operation.  For the
aggregation claims the paged endpoint is abstracted as a `fetch` oracle
mapping (call index, requested offset) to the page the server returns; this
covers arbitrary, even inconsistent, servers.  The `do/while` loop is given
explicit fuel; `none` means the loop was still running when fuel ran out. -/

/-- One page as returned by `get_list`: the fields `items`, `offset`,
`total`, `limit` read off the response body (`limit` is named `plimit` to
keep the record projections unambiguous). -/
structure Page (α : Type) where
  items : List α
  offset : Nat
  total : Nat
  plimit : Nat
  deriving DecidableEq

/-- The synthetic aggregate object `get_list_all` returns:
`{items: all, offset: 0, total: all.length, limit: all.length}`. -/
structure AggResult (α : Type) where
  items : List α
  offset : Nat
  total : Nat
  limit : Nat
  deriving DecidableEq

/-- The `do { res = get_list(uri, 500, res ? res.offset + res.limit : 0); all = all.concat(res.items) } while (res.total > all.length && res.items.length)`
loop of `get_list_all` (src/index.js:404-412).  Besides the aggregate it
returns the list of offsets that were requested, one per fetch. -/
def glaGo {α : Type} (fetch : Nat → Nat → Page α) :
    Nat → Nat → List α → List Nat → Option (AggResult α × List Nat)
  | 0, _, _, _ => none
  | fuel + 1, off, all, offs =>
    let res := fetch offs.length off
    let all2 := all ++ res.items
    if res.total > all2.length ∧ res.items.length ≠ 0 then
      glaGo fetch fuel (res.offset + res.plimit) all2 (offs ++ [off])
    else
      some (⟨all2, 0, all2.length, all2.length⟩, offs ++ [off])

/-- Model of `get_list_all` (src/index.js:401-419): the aggregation loop started with
empty accumulator and initial offset 0 (`res` is not yet set). -/
def get_list_all {α : Type} (fetch : Nat → Nat → Page α) (fuel : Nat) :
    Option (AggResult α × List Nat) :=
  glaGo fetch fuel 0 [] []

/-- Termination of `get_list_all` on the server `fetch`: some amount of fuel
lets the loop finish. -/
def TerminatesOn {α : Type} (fetch : Nat → Nat → Page α) : Prop :=
  ∃ fuel r, get_list_all fetch fuel = some r

/-- A server serving the fixed collection `L` consistently at page size 500:
a request at offset `o` returns items `L[o..o+500)`, echoes the offset, the
true total and the requested limit 500. -/
def cFetch {α : Type} (L : List α) : Nat → Nat → Page α :=
  fun _ off => ⟨(L.drop off).take 500, off, L.length, 500⟩

/-- An adversarial server whose `i`-th response (0-based) is one item with
reported total `i + 2`, always one more than will have been accumulated. -/
def advFetch : Nat → Nat → Page Nat :=
  fun i _ => ⟨[0], 0, i + 2, 0⟩

/-! ## Client state machine

The rest of `PhoenixApiClient` is embedded as explicit state passing.
`Client` holds the instance fields; `World` holds the browser environment:
both storage scopes, the address-bar fragment, the scripted sequence of
HTTP responses (consumed one per issued request), the listener invocations
that have fired, the armed `setTimeout` delays, and the retry waits that
were awaited.  JSON (de)serialisation of the stored session object is
modelled as exact, which is faithful for records of numbers and strings. -/

/-- The error payload of a failed request: the HTTP status and the optional
`@error.@rateLimit["Retry-After"]` field of the body. -/
structure HttpErr where
  status : Nat
  retryAfter : Option Nat
  deriving DecidableEq

/-- Response bodies the modelled endpoints return: `{}`, the who-am-I
payload (its `scope_details[0].voip_id` and optional `expires_at`), a page
object, or an opaque item. -/
inductive ApiData where
  | empty : ApiData
  | whoami (voip_id : Nat) (expires_at : Option Int) : ApiData
  | page (items : List Nat) (offset : Nat) (total : Nat) (plimit : Nat) : ApiData
  | item (n : Nat) : ApiData
  deriving DecidableEq

/-- One scripted HTTP exchange: the request either resolves with a body or
rejects with an error response. -/
inductive HttpResp where
  | ok (d : ApiData) : HttpResp
  | fail (e : HttpErr) : HttpResp
  deriving DecidableEq

/-- JavaScript exceptions: an axios rejection carrying `e.response`, a
`TypeError` (null/undefined property access, assignment to a `const`), or
the out-of-script marker used when the response script is exhausted (never
reachable under the theorems' hypotheses). -/
inductive JsErr where
  | http (e : HttpErr) : JsErr
  | typeError : JsErr
  | noResp : JsErr
  deriving DecidableEq

/-- Listener events: the keys of `this.listeners`. -/
inductive Ev where
  | loggedOut : Ev
  | sessionExpired : Ev
  | errorEv : Ev
  deriving DecidableEq

/-- The session object handed to `set_user`: user id, bearer token string,
optional expiration (epoch millis). -/
structure Session where
  id : Nat
  token : String
  expiration : Option Int
  deriving DecidableEq

/-- The recognised constructor options (src/index.js:20-30).
`handle_server_error` is `false` or a max attempt count; `0` models
`false` (both are falsy in the `&&` guard).  `tab_scope` is
`session_scope === "tab"`. -/
structure Options where
  handle_rate_limit : Bool
  handle_server_error : Nat
  scope : List String
  session_name : String
  id_token_sign_out : Bool
  ignore_state : Bool
  tab_scope : Bool
  deriving DecidableEq

/-- The default options of the constructor. -/
def defaultOptions : Options :=
  ⟨true, 3, [("account-owner")], ("phoenix-api-js-client-session"), false, false, true⟩

/-- The instance fields of `PhoenixApiClient` relevant to the claims,
plus which listeners are registered (`on(event, callback)` with a truthy
callback). -/
structure Client where
  user : Option Session
  token : Option String
  uses_token : Bool
  id_token : Option String
  expiration_timeout : Int
  options : Options
  onLoggedOut : Bool
  onSessionExpired : Bool
  onError : Bool
  deriving DecidableEq

/-- The browser world: tab- and browser-scoped storage (sessions stored
under string keys), the anti-forgery state value persisted in
`localStorage` under `{session_name}_state`, the current location fragment,
the scripted HTTP responses still to be served, the listener events fired
so far, the armed timer delays, the retry waits (ms) awaited so far, the
number of HTTP requests issued, the attempt counter logged at each entry of
a retried operation, and whether the page navigated away. -/
structure World where
  tabStore : List (String × Session)
  localStore : List (String × Session)
  stateVal : Option String
  hash : String
  env : List HttpResp
  events : List Ev
  timers : List Int
  waits : List Nat
  httpCount : Nat
  attemptsLog : List Nat
  navigated : Bool
  deriving DecidableEq

/-- Model of `storage.setItem`: replace the binding of `k`. -/
def storePut (m : List (String × Session)) (k : String) (v : Session) :
    List (String × Session) :=
  (k, v) :: m.filter (fun p => p.1 ≠ k)

/-- Model of `storage.getItem`. -/
def storeGet (m : List (String × Session)) (k : String) : Option Session :=
  (m.find? (fun p => p.1 == k)).map (fun p => p.2)

/-- Model of `storage.removeItem`. -/
def storeDel (m : List (String × Session)) (k : String) :
    List (String × Session) :=
  m.filter (fun p => p.1 ≠ k)

/-- Model of `_setItem` (src/index.js:742-750): writes to session or local storage
according to `options.session_scope`. -/
def _setItem (c : Client) (w : World) (k : String) (v : Session) : World :=
  if c.options.tab_scope then {w with tabStore := storePut w.tabStore k v}
  else {w with localStore := storePut w.localStore k v}

/-- Model of `_getItem` (src/index.js:757-762). -/
def _getItem (c : Client) (w : World) (k : String) : Option Session :=
  if c.options.tab_scope then storeGet w.tabStore k else storeGet w.localStore k

/-- Model of `_removeItem` (src/index.js:769-777). -/
def _removeItem (c : Client) (w : World) (k : String) : World :=
  if c.options.tab_scope then {w with tabStore := storeDel w.tabStore k}
  else {w with localStore := storeDel w.localStore k}

/-- Invoke a registered listener: append the event to the fired log. -/
def fire (w : World) (e : Ev) : World :=
  {w with events := w.events ++ [e]}

/-- Issue one HTTP request: consume the next scripted response. -/
def takeResp (w : World) : Option (HttpResp × World) :=
  match w.env with
  | [] => none
  | r :: rest => some (r, {w with env := rest, httpCount := w.httpCount + 1})

/-- The result of a method: a resolved value or a thrown exception, plus the
updated client and world (JavaScript state mutations survive a throw). -/
abbrev MRes (α : Type) := Except JsErr α × Client × World

/-- Model of `_session_expired` (src/index.js:316-318):
`(this.expiration_timeout - Date.now() - 10000) < 0`. -/
def _session_expired (c : Client) (now : Int) : Bool :=
  c.expiration_timeout - now - 10000 < 0

/-- Model of `_phoenix_url` (src/index.js:375-381).  With `global = false` it reads
`this.user["id"]`, which on a `null` user throws a `TypeError` before any
request is built. -/
def _phoenix_url (c : Client) (uri : String) (globalFlag : Bool) :
    Except JsErr String :=
  if globalFlag then .ok (("https://api.phone.com") ++ uri)
  else
    match c.user with
    | none => .error .typeError
    | some u => .ok (("https://api.phone.com/v4/accounts/") ++ toString u.id ++ uri)

/-- Truthiness of `this.user && this.user["token"]`. -/
def userTokenTruthy (c : Client) : Bool :=
  match c.user with
  | some u => u.token.length != 0
  | none => false

/-- Model of `_phoenix_auth_headers` (src/index.js:388-393): an `Authorization`
header when a user token or an explicit token exists, else `{}`. -/
def _phoenix_auth_headers (c : Client) (token : String) :
    List (String × String) :=
  if userTokenTruthy c || token.length != 0 then
    [(("Authorization"),
      if token.length != 0 then token
      else match c.user with | some u => u.token | none => "")]
  else []

/-- The seconds `handle_rate_limit` sleeps (src/index.js:149):
`err.data["@error"]["@rateLimit"]["Retry-After"] || 1` — an absent or zero
value falls back to 1. -/
def retrySeconds (e : HttpErr) : Nat :=
  match e.retryAfter with
  | some s => if s = 0 then 1 else s
  | none => 1

/-- Model of `post_sign_out` (src/index.js:240-245): clear the user, erase the
persisted session, and fire `logged-out` only when this is not an
expiry-triggered sign-out. -/
def post_sign_out (c : Client) (w : World) (session_expired : Bool) :
    Client × World :=
  let c2 := {c with user := none}
  let w2 := _removeItem c2 w c2.options.session_name
  let w3 := if c2.onLoggedOut ∧ ¬ session_expired then fire w2 .loggedOut else w2
  (c2, w3)

/-- Model of `openid_endsession` (src/index.js:250-260): drop the id token, sign out
locally and navigate to the end-session route. -/
def openid_endsession (c : Client) (w : World) (session_expired : Bool) :
    Client × World :=
  let c2 := {c with id_token := none}
  let (c3, w2) := post_sign_out c2 w session_expired
  (c3, {w2 with navigated := true})

/-- Model of `delete_access_token` (src/index.js:267-299), with fuel for the retry
recursion.  On 401 it resolves with `null`; a 429 retry's result is
returned, while a 5xx retry's result is *discarded* (missing `return`),
after which the error listener fires and the original error is thrown.
The resolved JavaScript value (`true`, `item.data` or `null`) is unused by
every caller and therefore collapsed to `Unit`. -/
def delete_access_token : Nat → Client → World → Nat → MRes Unit
  | 0, c, w, _ => (.error .noResp, c, w)
  | fuel + 1, c, w, attempt =>
    if c.uses_token then (.ok (), c, w)
    else
      match _phoenix_url c ("/v4/oauth/access-token") true with
      | .error e => (.error e, c, w)
      | .ok _url =>
        match takeResp w with
        | none => (.error .noResp, c, w)
        | some (r, w1) =>
          match r with
          | .ok _d => (.ok (), c, w1)
          | .fail e =>
            if e.status = 401 then (.ok (), c, w1)
            else if e.status = 429 ∧ c.options.handle_rate_limit then
              let w2 := {w1 with waits := w1.waits ++ [retrySeconds e * 1000]}
              delete_access_token fuel c w2 attempt
            else if 500 ≤ e.status ∧ e.status ≤ 599 ∧
                c.options.handle_server_error ≠ 0 ∧
                attempt ≤ c.options.handle_server_error then
              let w2 := {w1 with waits := w1.waits ++ [500]}
              match delete_access_token fuel c w2 (attempt + 1) with
              | (.error e2, c2, w3) => (.error e2, c2, w3)
              | (.ok _, c2, w3) =>
                let w4 := if c2.onError then fire w3 .errorEv else w3
                (.error (.http e), c2, w4)
            else
              let w2 := if c.onError then fire w1 .errorEv else w1
              (.error (.http e), c, w2)

/-- Model of `sign_out` (src/index.js:223-235): revoke the token then clean up;
every failure is caught and only logged, in which case the local cleanup
does not run. -/
def sign_out (c : Client) (w : World) (session_expired : Bool) :
    Client × World :=
  if c.options.id_token_sign_out ∧ ("openid") ∈ c.options.scope ∧
      c.id_token.isSome then
    match delete_access_token (w.env.length + 1) c w 1 with
    | (.ok _, c1, w1) => openid_endsession c1 w1 session_expired
    | (.error _, c1, w1) => (c1, w1)
  else
    match delete_access_token (w.env.length + 1) c w 1 with
    | (.ok _, c1, w1) => post_sign_out c1 w1 session_expired
    | (.error _, c1, w1) => (c1, w1)

/-- Model of `handle_expired_session` (src/index.js:308-311): sign out as expired,
then notify the `session-expired` listener. -/
def handle_expired_session (c : Client) (w : World) : Client × World :=
  let (c1, w1) := sign_out c w true
  (c1, if c1.onSessionExpired then fire w1 .sessionExpired else w1)

/-- Model of `set_user` (src/index.js:324-343).  A falsy (absent or zero) expiration
skips scheduling entirely.  A session the local clock already considers
expired (strictly negative skewed delay) triggers expiry handling instead
of persisting.  Otherwise the session is persisted and the timer armed —
but the clamp branch assigns to the `const timeout`, so a delay above
2147483647 ms throws a `TypeError` instead of clamping. -/
def set_user (c : Client) (w : World) (now : Int) (u : Session) : MRes Unit :=
  let c1 := {c with user := some u}
  match u.expiration with
  | none => (.ok (), c1, w)
  | some exp =>
    if exp = 0 then (.ok (), c1, w)
    else
      let c2 := {c1 with expiration_timeout := exp}
      if _session_expired c2 now then
        let (c3, w1) := handle_expired_session c2 w
        (.ok (), c3, w1)
      else
        let w1 := _setItem c2 w c2.options.session_name u
        let timeout := exp - now - 10000
        if timeout > 2147483647 then (.error .typeError, c2, w1)
        else (.ok (), c2, {w1 with timers := w1.timers ++ [timeout]})

/-- Model of `call_api` (src/index.js:710-734).  The try block builds the URL (which
may throw on a null user), issues the request, and resolves with the body.
The catch reads `e.response`: a 401 while the local clock considers the
session expired forces expiry handling and resolves with `{data: {}}`;
any other HTTP failure is reported to the error listener and rethrown; a
non-HTTP exception makes `err.status` itself throw a `TypeError`. -/
def call_api (c : Client) (w : World) (now : Int) (method uri : String)
    (is_uri_global : Bool) (token : String) : MRes ApiData :=
  let tryRes : Except JsErr ApiData × World :=
    match _phoenix_url c uri is_uri_global with
    | .error e => (.error e, w)
    | .ok _url =>
      match takeResp w with
      | none => (.error .noResp, w)
      | some (r, w1) =>
        match r with
        | .ok d => (.ok d, w1)
        | .fail e => (.error (.http e), w1)
  match tryRes with
  | (.ok d, w1) => (.ok d, c, w1)
  | (.error e, w1) =>
    match e with
    | .http he =>
      if he.status = 401 ∧ _session_expired c now then
        let (c1, w2) := handle_expired_session c w1
        (.ok .empty, c1, w2)
      else
        let w2 := if c.onError then fire w1 .errorEv else w1
        (.error (.http he), c, w2)
    | .typeError => (.error .typeError, c, w1)
    | .noResp => (.error .noResp, c, w1)

/-! ### Resource operations

Each operation wraps one `call_api` request in the shared retry policy
(src/index.js:472-662).  The 429 branch `return`s the retried promise with
the *same* attempt count; the 5xx branch awaits the retry but — missing a
`return` — discards its resolved value and falls through to `throw err`,
so only a retry's *rejection* propagates.  Each operation entry logs its
attempt counter in `attemptsLog`; fuel bounds the recursion and is never
exhausted when every request consumes a scripted response. -/

/-- Model of `get_item` (src/index.js:472-496). -/
def get_item : Nat → Client → World → Int → String → Nat → MRes ApiData
  | 0, c, w, _, _, _ => (.error .noResp, c, w)
  | fuel + 1, c, w, now, uri, attempt =>
    let w0 := {w with attemptsLog := w.attemptsLog ++ [attempt]}
    match call_api c w0 now ("get") uri false ("") with
    | (.ok d, c1, w1) => (.ok d, c1, w1)
    | (.error e, c1, w1) =>
      match e with
      | .http err =>
        if err.status = 429 ∧ c1.options.handle_rate_limit then
          let w2 := {w1 with waits := w1.waits ++ [retrySeconds err * 1000]}
          get_item fuel c1 w2 now uri attempt
        else if 500 ≤ err.status ∧ err.status ≤ 599 ∧
            c1.options.handle_server_error ≠ 0 ∧
            attempt ≤ c1.options.handle_server_error then
          let w2 := {w1 with waits := w1.waits ++ [500]}
          match get_item fuel c1 w2 now uri (attempt + 1) with
          | (.error e2, c2, w3) => (.error e2, c2, w3)
          | (.ok _, c2, w3) => (.error (.http err), c2, w3)
        else (.error (.http err), c1, w1)
      | other => (.error other, c1, w1)

/-- Model of `delete_item` (src/index.js:504-528). -/
def delete_item : Nat → Client → World → Int → String → Nat → MRes ApiData
  | 0, c, w, _, _, _ => (.error .noResp, c, w)
  | fuel + 1, c, w, now, uri, attempt =>
    let w0 := {w with attemptsLog := w.attemptsLog ++ [attempt]}
    match call_api c w0 now ("delete") uri false ("") with
    | (.ok d, c1, w1) => (.ok d, c1, w1)
    | (.error e, c1, w1) =>
      match e with
      | .http err =>
        if err.status = 429 ∧ c1.options.handle_rate_limit then
          let w2 := {w1 with waits := w1.waits ++ [retrySeconds err * 1000]}
          delete_item fuel c1 w2 now uri attempt
        else if 500 ≤ err.status ∧ err.status ≤ 599 ∧
            c1.options.handle_server_error ≠ 0 ∧
            attempt ≤ c1.options.handle_server_error then
          let w2 := {w1 with waits := w1.waits ++ [500]}
          match delete_item fuel c1 w2 now uri (attempt + 1) with
          | (.error e2, c2, w3) => (.error e2, c2, w3)
          | (.ok _, c2, w3) => (.error (.http err), c2, w3)
        else (.error (.http err), c1, w1)
      | other => (.error other, c1, w1)

/-- Model of `download_item` (src/index.js:536-563): a GET with a blob response type
and a 30 s timeout (transport options that do not change the retry flow). -/
def download_item : Nat → Client → World → Int → String → Nat → MRes ApiData
  | 0, c, w, _, _, _ => (.error .noResp, c, w)
  | fuel + 1, c, w, now, uri, attempt =>
    let w0 := {w with attemptsLog := w.attemptsLog ++ [attempt]}
    match call_api c w0 now ("get") uri false ("") with
    | (.ok d, c1, w1) => (.ok d, c1, w1)
    | (.error e, c1, w1) =>
      match e with
      | .http err =>
        if err.status = 429 ∧ c1.options.handle_rate_limit then
          let w2 := {w1 with waits := w1.waits ++ [retrySeconds err * 1000]}
          download_item fuel c1 w2 now uri attempt
        else if 500 ≤ err.status ∧ err.status ≤ 599 ∧
            c1.options.handle_server_error ≠ 0 ∧
            attempt ≤ c1.options.handle_server_error then
          let w2 := {w1 with waits := w1.waits ++ [500]}
          match download_item fuel c1 w2 now uri (attempt + 1) with
          | (.error e2, c2, w3) => (.error e2, c2, w3)
          | (.ok _, c2, w3) => (.error (.http err), c2, w3)
        else (.error (.http err), c1, w1)
      | other => (.error other, c1, w1)

/-- Model of `replace_item` (src/index.js:572-596): PUT with a body. -/
def replace_item : Nat → Client → World → Int → String → ApiData → Nat → MRes ApiData
  | 0, c, w, _, _, _, _ => (.error .noResp, c, w)
  | fuel + 1, c, w, now, uri, data, attempt =>
    let w0 := {w with attemptsLog := w.attemptsLog ++ [attempt]}
    match call_api c w0 now ("put") uri false ("") with
    | (.ok d, c1, w1) => (.ok d, c1, w1)
    | (.error e, c1, w1) =>
      match e with
      | .http err =>
        if err.status = 429 ∧ c1.options.handle_rate_limit then
          let w2 := {w1 with waits := w1.waits ++ [retrySeconds err * 1000]}
          replace_item fuel c1 w2 now uri data attempt
        else if 500 ≤ err.status ∧ err.status ≤ 599 ∧
            c1.options.handle_server_error ≠ 0 ∧
            attempt ≤ c1.options.handle_server_error then
          let w2 := {w1 with waits := w1.waits ++ [500]}
          match replace_item fuel c1 w2 now uri data (attempt + 1) with
          | (.error e2, c2, w3) => (.error e2, c2, w3)
          | (.ok _, c2, w3) => (.error (.http err), c2, w3)
        else (.error (.http err), c1, w1)
      | other => (.error other, c1, w1)

/-- Model of `patch_item` (src/index.js:605-629): PATCH with a body. -/
def patch_item : Nat → Client → World → Int → String → ApiData → Nat → MRes ApiData
  | 0, c, w, _, _, _, _ => (.error .noResp, c, w)
  | fuel + 1, c, w, now, uri, data, attempt =>
    let w0 := {w with attemptsLog := w.attemptsLog ++ [attempt]}
    match call_api c w0 now ("patch") uri false ("") with
    | (.ok d, c1, w1) => (.ok d, c1, w1)
    | (.error e, c1, w1) =>
      match e with
      | .http err =>
        if err.status = 429 ∧ c1.options.handle_rate_limit then
          let w2 := {w1 with waits := w1.waits ++ [retrySeconds err * 1000]}
          patch_item fuel c1 w2 now uri data attempt
        else if 500 ≤ err.status ∧ err.status ≤ 599 ∧
            c1.options.handle_server_error ≠ 0 ∧
            attempt ≤ c1.options.handle_server_error then
          let w2 := {w1 with waits := w1.waits ++ [500]}
          match patch_item fuel c1 w2 now uri data (attempt + 1) with
          | (.error e2, c2, w3) => (.error e2, c2, w3)
          | (.ok _, c2, w3) => (.error (.http err), c2, w3)
        else (.error (.http err), c1, w1)
      | other => (.error other, c1, w1)

/-- Model of `create_item` (src/index.js:638-662): POST with a body. -/
def create_item : Nat → Client → World → Int → String → ApiData → Nat → MRes ApiData
  | 0, c, w, _, _, _, _ => (.error .noResp, c, w)
  | fuel + 1, c, w, now, uri, data, attempt =>
    let w0 := {w with attemptsLog := w.attemptsLog ++ [attempt]}
    match call_api c w0 now ("post") uri false ("") with
    | (.ok d, c1, w1) => (.ok d, c1, w1)
    | (.error e, c1, w1) =>
      match e with
      | .http err =>
        if err.status = 429 ∧ c1.options.handle_rate_limit then
          let w2 := {w1 with waits := w1.waits ++ [retrySeconds err * 1000]}
          create_item fuel c1 w2 now uri data attempt
        else if 500 ≤ err.status ∧ err.status ≤ 599 ∧
            c1.options.handle_server_error ≠ 0 ∧
            attempt ≤ c1.options.handle_server_error then
          let w2 := {w1 with waits := w1.waits ++ [500]}
          match create_item fuel c1 w2 now uri data (attempt + 1) with
          | (.error e2, c2, w3) => (.error e2, c2, w3)
          | (.ok _, c2, w3) => (.error (.http err), c2, w3)
        else (.error (.http err), c1, w1)
      | other => (.error other, c1, w1)

/-- Does `needle` occur contiguously in the character list? -/
def jsIncludesAux (needle : List Char) : List Char → Bool
  | [] => needle.isEmpty
  | h :: t => needle.isPrefixOf (h :: t) || jsIncludesAux needle t

/-- Model of `String.includes` of JavaScript. -/
def jsIncludes (s sub : String) : Bool :=
  jsIncludesAux sub.toList s.toList

/-- Field accessors used by `get_list` on the response body; on a body that
is not a page object the JavaScript reads would yield `undefined`, which no
claim exercises — defaults stand in. -/
def dataItems : ApiData → List Nat
  | .page i _ _ _ => i
  | _ => []

def dataOffset : ApiData → Nat
  | .page _ o _ _ => o
  | _ => 0

def dataTotal : ApiData → Nat
  | .page _ _ t _ => t
  | _ => 0

def dataLimit : ApiData → Nat
  | .page _ _ _ l => l
  | _ => 0

/-- Model of `get_list` (src/index.js:430-464).  On the first attempt the limit and
offset are appended to `uri`; note that the retry closures capture the
already-extended `uri`, and a 429 retry still has `_attempt === 1`, so the
query string is appended again — reproduced faithfully. -/
def get_list : Nat → Client → World → Int → String → Nat → Nat → Bool → Nat → MRes (Page Nat)
  | 0, c, w, _, _, _, _, _, _ => (.error .noResp, c, w)
  | fuel + 1, c, w, now, uri, lim, off, globalFlag, attempt =>
    let w0 := {w with attemptsLog := w.attemptsLog ++ [attempt]}
    let uri2 :=
      if lim ≠ 0 ∧ attempt = 1 then
        uri ++ (if jsIncludes uri ("?") then ("&") else ("?")) ++
          ("limit=") ++ toString lim ++
          (if off ≠ 0 then ("&offset=") ++ toString off else (""))
      else uri
    match call_api c w0 now ("get")
        (if globalFlag then ("/v4") ++ uri2 else uri2) globalFlag ("") with
    | (.ok d, c1, w1) =>
      (.ok ⟨dataItems d, dataOffset d, dataTotal d, dataLimit d⟩, c1, w1)
    | (.error e, c1, w1) =>
      match e with
      | .http err =>
        if err.status = 429 ∧ c1.options.handle_rate_limit then
          let w2 := {w1 with waits := w1.waits ++ [retrySeconds err * 1000]}
          get_list fuel c1 w2 now uri2 lim off globalFlag attempt
        else if 500 ≤ err.status ∧ err.status ≤ 599 ∧
            c1.options.handle_server_error ≠ 0 ∧
            attempt ≤ c1.options.handle_server_error then
          let w2 := {w1 with waits := w1.waits ++ [500]}
          match get_list fuel c1 w2 now uri2 lim off globalFlag (attempt + 1) with
          | (.error e2, c2, w3) => (.error e2, c2, w3)
          | (.ok _, c2, w3) => (.error (.http err), c2, w3)
        else (.error (.http err), c1, w1)
      | other => (.error other, c1, w1)

/-- The `expires_at ? expires_at * 1000 : null` conversion of `_load_user`. -/
def expirationOf (expires_at : Option Int) : Option Int :=
  match expires_at with
  | some ea => if ea = 0 then none else some (ea * 1000)
  | none => none

/-- Model of `_load_user` (src/index.js:182-218).  The try block sets `uses_token`,
fetches the who-am-I endpoint with the explicit token, strips the fragment
(history.pushState) and installs the session via `set_user`.  In the catch,
the 429 branch awaits `handle_rate_limit` *without* `return`, and the
retried call is `this._load_user(token, _attempt)` — the attempt count
lands in the `uses_token` parameter (truthy for every positive attempt) and
the attempt counter resets to 1; if the retry resolves, control falls
through to the final `throw err`.  The 5xx branch behaves alike with an
incremented (then likewise misplaced) attempt count. -/
def _load_user : Nat → Client → World → Int → String → Bool → Nat → MRes Unit
  | 0, c, w, _, _, _, _ => (.error .noResp, c, w)
  | fuel + 1, c, w, now, token, uses_token, attempt =>
    let c0 := {c with uses_token := uses_token}
    let w0 := {w with attemptsLog := w.attemptsLog ++ [attempt]}
    let tryRes : MRes Unit :=
      match call_api c0 w0 now ("get") ("/v4/oauth/access-token") true token with
      | (.ok d, c1, w1) =>
        match d with
        | .whoami voip ea =>
          match set_user c1 {w1 with hash := ""} now
              ⟨voip, token, expirationOf ea⟩ with
          | (.ok _, c2, w2) => (.ok (), c2, w2)
          | (.error e, c2, w2) => (.error e, c2, w2)
        | _ => (.error .typeError, c1, w1)
      | (.error e, c1, w1) => (.error e, c1, w1)
    match tryRes with
    | (.ok _, c2, w2) => (.ok (), c2, w2)
    | (.error e, c2, w2) =>
      match e with
      | .http err =>
        if err.status = 429 ∧ c2.options.handle_rate_limit then
          let w3 := {w2 with waits := w2.waits ++ [retrySeconds err * 1000]}
          match _load_user fuel c2 w3 now token (decide (attempt ≠ 0)) 1 with
          | (.error e2, c3, w4) => (.error e2, c3, w4)
          | (.ok _, c3, w4) => (.error (.http err), c3, w4)
        else if 500 ≤ err.status ∧ err.status ≤ 599 ∧
            c2.options.handle_server_error ≠ 0 ∧
            attempt ≤ c2.options.handle_server_error then
          let w3 := {w2 with waits := w2.waits ++ [500]}
          match _load_user fuel c2 w3 now token (decide (attempt + 1 ≠ 0)) 1 with
          | (.error e2, c3, w4) => (.error e2, c3, w4)
          | (.ok _, c3, w4) => (.error (.http err), c3, w4)
        else (.error (.http err), c2, w2)
      | other => (.error other, c2, w2)

/-- The `_state` getter (src/index.js:130-140): the stored anti-forgery
state, or a freshly generated random value (`rnd`) that is stored first. -/
def _state (w : World) (rnd : String) : String × World :=
  match w.stateVal with
  | some s => (s, w)
  | none => (rnd, {w with stateVal := some rnd})

/-- Model of `String.split` on a single-character separator (structural, so that
concrete runs reduce): JavaScript's `"".split(c)` is `[""]`. -/
def splitOnChar (c : Char) : List Char → List (List Char)
  | [] => [[]]
  | h :: t =>
    let r := splitOnChar c t
    if h = c then [] :: r
    else
      match r with
      | [] => [[h]]
      | g :: gs => (h :: g) :: gs

/-- The `parse_query` helper of `_oauth` (src/index.js:95-108): drop the
leading `#`, split on `&`, drop empty segments, split each on `=`.
`decodeURIComponent` is modelled as the identity (the claims' values
contain no percent escapes). -/
def parse_query (hash_string : String) : List (List String) :=
  ((splitOnChar ('&') (hash_string.toList.drop 1)).filter
    (fun v => v.length ≠ 0)).map
    (fun v => (splitOnChar ('=') v).map (fun cs => String.mk cs))

/-- Building `hashObject` and reading a key: later pairs overwrite earlier
ones; a pair without a value reads as the string `undefined`. -/
def hashLookup (pairs : List (List String)) (key : String) : Option String :=
  pairs.foldl
    (fun acc parts =>
      if parts.headD ("") = key then some ((parts[1]?).getD ("undefined"))
      else acc)
    none

/-- Model of `_oauth` (src/index.js:93-124).  With a user present it returns true at
once.  With a bearer-flow fragment it checks the anti-forgery state unless
disabled — on mismatch it only warns on the console and returns false (no
error event, nothing thrown) — then assembles the token, loads the user,
and stores the id token when an OpenID scope was requested. -/
def _oauth (c : Client) (w : World) (now : Int) (rnd : String) : MRes Bool :=
  if c.user.isSome then (.ok true, c, w)
  else if jsIncludes w.hash ("token_type=Bearer") then
    let pairs := parse_query w.hash
    let proceed : World → MRes Bool := fun w1 =>
      let tok := (hashLookup pairs ("token_type")).getD ("undefined") ++ " " ++
        (hashLookup pairs ("access_token")).getD ("undefined")
      let c1 := {c with token := some tok}
      match _load_user (w1.env.length + 1) c1 w1 now tok false 1 with
      | (.error e, c2, w2) => (.error e, c2, w2)
      | (.ok _, c2, w2) =>
        if (hashLookup pairs ("id_token")).isSome ∧
            ("openid") ∈ c2.options.scope then
          (.ok true, {c2 with id_token := hashLookup pairs ("id_token")}, w2)
        else (.ok true, c2, w2)
    if c.options.ignore_state then proceed w
    else
      let sw := _state w rnd
      if some sw.1 ≠ hashLookup pairs ("state") then (.ok false, c, sw.2)
      else proceed sw.2
  else (.ok false, c, w)

/-- Model of `init_user` (src/index.js:80-87): restore a persisted session if any;
since `set_user` resolves with `undefined` (falsy), the `_oauth` fallback
always runs afterwards, returning immediately when a user is installed.
Returns `!!this.user`. -/
def init_user (c : Client) (w : World) (now : Int) (rnd : String) : MRes Bool :=
  match _getItem c w c.options.session_name with
  | some u =>
    match set_user c w now u with
    | (.error e, c1, w1) => (.error e, c1, w1)
    | (.ok _, c1, w1) =>
      match _oauth c1 w1 now rnd with
      | (.error e, c2, w2) => (.error e, c2, w2)
      | (.ok _, c2, w2) => (.ok c2.user.isSome, c2, w2)
  | none =>
    match _oauth c w now rnd with
    | (.error e, c2, w2) => (.error e, c2, w2)
    | (.ok _, c2, w2) => (.ok c2.user.isSome, c2, w2)

deriving instance DecidableEq for Except

/-- A freshly constructed client with the given options, no user, and all
three listeners registered. -/
def mkClient (opts : Options) : Client :=
  ⟨none, none, false, none, 0, opts, true, true, true⟩

/-- A pristine world with the given script of HTTP responses. -/
def mkWorld (env : List HttpResp) : World :=
  ⟨[], [], none, "", env, [], [], [], 0, [], false⟩

/-! ## Theorems -/

theorem range_map_shift (m k : Nat) :
    (List.range (m + 1)).map (fun i => 500 * (k + i)) =
      500 * k :: (List.range m).map (fun i => 500 * (k + 1 + i)) := by
  rw [List.range_succ_eq_map, List.map_cons, List.map_map]
  refine congrArg₂ List.cons (by ring) (List.map_congr_left ?_)
  intro a _
  simp only [Function.comp_apply, Nat.succ_eq_add_one]
  ring

theorem glaGo_cFetch {α : Type} (L : List α) :
    ∀ (fuel k : Nat) (offs : List Nat),
      500 * k < L.length → L.length ≤ 500 * k + 500 * fuel →
      glaGo (cFetch L) fuel (500 * k) (L.take (500 * k)) offs =
        some (⟨L, 0, L.length, L.length⟩,
          offs ++ (List.range ((L.length - 500 * k + 499) / 500)).map
            (fun i => 500 * (k + i))) := by
  intro fuel
  induction fuel with
  | zero =>
    intro k offs hk hfuel
    omega
  | succ n ih =>
    intro k offs hk hfuel
    have hall2 : L.take (500 * k) ++ (L.drop (500 * k)).take 500 =
        L.take (500 * k + 500) := (List.take_add L (500 * k) 500).symm
    have hitems : ((L.drop (500 * k)).take 500).length =
        min 500 (L.length - 500 * k) := by
      simp [List.length_take, List.length_drop]
    simp only [glaGo, cFetch, hall2]
    by_cases hstop : 500 * k + 500 < L.length
    · have hcond : L.length > (L.take (500 * k + 500)).length ∧
          ((L.drop (500 * k)).take 500).length ≠ 0 := by
        constructor
        · simp [List.length_take]
          omega
        · rw [hitems]
          omega
      rw [if_pos hcond]
      have h501 : 500 * k + 500 = 500 * (k + 1) := by ring
      have hrec := ih (k + 1) (offs ++ [500 * k])
        (by omega) (by omega)
      rw [h501]
      rw [hrec]
      have hm : (L.length - 500 * k + 499) / 500 =
          (L.length - 500 * (k + 1) + 499) / 500 + 1 := by omega
      rw [hm, range_map_shift]
      simp
    · have hall2len : (L.take (500 * k + 500)).length = L.length := by
        simp [List.length_take]
        omega
      have hcond : ¬ (L.length > (L.take (500 * k + 500)).length ∧
          ((L.drop (500 * k)).take 500).length ≠ 0) := by
        rw [hall2len]
        simp
      rw [if_neg hcond]
      have htake : L.take (500 * k + 500) = L :=
        List.take_of_length_le (by omega)
      have hm : (L.length - 500 * k + 499) / 500 = 1 := by omega
      rw [htake, hm]
      have hr1 : List.range 1 = [0] := rfl
      simp [hall2len, htake, hr1]

/-- C3 (amended): over any nonempty collection served consistently at page
size 500, `get_list_all` returns exactly the collection with
`offset = 0` and `total = limit =` the item count, fetching
`ceil(total/500)` pages at offsets 0, 500, 1000, …  (An empty collection
still costs one probe fetch, which is the corrected part of the claim.) -/
theorem get_list_all_consistent_pages {α : Type} (L : List α) (fuel : Nat)
    (hne : L ≠ []) (hfuel : L.length ≤ 500 * fuel) :
    get_list_all (cFetch L) fuel =
      some (⟨L, 0, L.length, L.length⟩,
        (List.range ((L.length + 499) / 500)).map (fun i => 500 * i)) := by
  have h0 : (0 : Nat) < L.length := List.length_pos.mpr hne
  have h := glaGo_cFetch L fuel 0 [] (by simpa using h0) (by simpa using hfuel)
  simpa [get_list_all] using h

/-- Witness for C3: the 1200-item collection of the claim, paged at 500,
yields all 1200 items, `offset = 0`, `total = limit = 1200`, in exactly 3
fetches at offsets 0, 500, 1000 (pages of 500, 500, 200 items). -/
theorem get_list_all_consistent_pages_witness :
    (List.range 1200 ≠ [] ∧ (List.range 1200).length ≤ 500 * 3) ∧
      get_list_all (cFetch (List.range 1200)) 3 =
        some (⟨List.range 1200, 0, 1200, 1200⟩, [0, 500, 1000]) := by
  have h1 : List.range 1200 ≠ [] := by
    simp [List.range_eq_nil]
  have h2 : (List.range 1200).length ≤ 500 * 3 := by
    simp [List.length_range]
  refine ⟨⟨h1, h2⟩, ?_⟩
  rw [get_list_all_consistent_pages (List.range 1200) 3 h1 h2]
  norm_num [List.length_range]
  rfl

/-- Counterexample for C3: a consistently served *empty* collection still
costs one probe fetch (the loop is `do/while`), while the claim's
`ceil(total/500)` predicts zero fetches. -/
theorem get_list_all_empty_collection_fetch_count :
    get_list_all (cFetch ([] : List Nat)) 1 = some (⟨[], 0, 0, 0⟩, [0]) ∧
      (1 : Nat) ≠ ((0 : Nat) + 499) / 500 := by
  constructor
  · rfl
  · decide

/-- The adversarial server defeats the loop: each page keeps the reported
total one ahead of the accumulated count, so the `do/while` condition never
becomes false. -/
theorem glaGo_advFetch :
    ∀ (fuel off : Nat) (all offs : List Nat),
      all.length = offs.length → glaGo advFetch fuel off all offs = none := by
  intro fuel
  induction fuel with
  | zero => intros; rfl
  | succ n ih =>
    intro off all offs h
    simp only [glaGo, advFetch]
    rw [if_pos]
    · exact ih 0 (all ++ [0]) (offs ++ [off]) (by simp [h])
    · constructor
      · simp [List.length_append, h]
      · simp

/-- Counterexample for C4: `get_list_all` does not terminate for every
sequence of pages the server may return — a server that always reports a
total exceeding the items delivered so far (by returning nonempty pages
with ever-growing totals) keeps the loop running for every amount of fuel. -/
theorem get_list_all_inflating_total_diverges : ¬ TerminatesOn advFetch := by
  rintro ⟨fuel, r, hr⟩
  unfold get_list_all at hr
  rw [glaGo_advFetch fuel 0 [] [] rfl] at hr
  cases hr

/-- C4 (amended): the loop body stops exactly per the code's condition —
it halts as soon as a fetched page has zero items (even when the reported
total exceeds the items retrieved) or as soon as the accumulated count
reaches the reported total, and it continues otherwise; and whenever the
totals the server reports are uniformly bounded by `B`, the loop terminates
within `B + 1` fetches.  Unconditional termination (see the counterexample)
does not hold. -/
theorem get_list_all_stop_condition {α : Type} :
    (∀ (fetch : Nat → Nat → Page α) (fuel off : Nat) (all : List α)
        (offs : List Nat),
        (fetch offs.length off).items = [] →
        glaGo fetch (fuel + 1) off all offs =
          some (⟨all, 0, all.length, all.length⟩, offs ++ [off])) ∧
    (∀ (fetch : Nat → Nat → Page α) (fuel off : Nat) (all : List α)
        (offs : List Nat),
        (fetch offs.length off).total ≤
            (all ++ (fetch offs.length off).items).length →
        glaGo fetch (fuel + 1) off all offs =
          some (⟨all ++ (fetch offs.length off).items, 0,
                 (all ++ (fetch offs.length off).items).length,
                 (all ++ (fetch offs.length off).items).length⟩,
                offs ++ [off])) ∧
    (∀ (fetch : Nat → Nat → Page α) (fuel off : Nat) (all : List α)
        (offs : List Nat),
        (all ++ (fetch offs.length off).items).length <
            (fetch offs.length off).total →
        (fetch offs.length off).items ≠ [] →
        glaGo fetch (fuel + 1) off all offs =
          glaGo fetch fuel
            ((fetch offs.length off).offset + (fetch offs.length off).plimit)
            (all ++ (fetch offs.length off).items) (offs ++ [off])) ∧
    (∀ (fetch : Nat → Nat → Page α) (B : Nat),
        (∀ i o, (fetch i o).total ≤ B) →
        ∃ r, get_list_all fetch (B + 1) = some r) := by
  have hbounded : ∀ (fetch : Nat → Nat → Page α) (B : Nat),
      (∀ i o, (fetch i o).total ≤ B) →
      ∀ (fuel off : Nat) (all : List α) (offs : List Nat),
        B < all.length + fuel → fuel ≠ 0 →
        ∃ r, glaGo fetch fuel off all offs = some r := by
    intro fetch B hB fuel
    induction fuel with
    | zero => intro off all offs _ h0; exact absurd rfl h0
    | succ n ih =>
      intro off all offs hlt _
      simp only [glaGo]
      split
      · next hcond =>
        have hB1 := hB offs.length off
        have hlen : all.length + 1 ≤
            (all ++ (fetch offs.length off).items).length := by
          simp only [List.length_append]
          omega
        have hlen2 : (all ++ (fetch offs.length off).items).length <
            (fetch offs.length off).total := hcond.1
        exact ih _ _ _ (by omega) (by omega)
      · next => exact ⟨_, rfl⟩
  refine ⟨?_, ?_, ?_, ?_⟩
  · intro fetch fuel off all offs hempty
    simp only [glaGo, hempty]
    simp
  · intro fetch fuel off all offs htot
    simp only [glaGo]
    rw [if_neg]
    omega
  · intro fetch fuel off all offs hlt hne
    simp only [glaGo]
    rw [if_pos]
    constructor
    · exact hlt
    · simpa using hne
  · intro fetch B hB
    exact hbounded fetch B hB (B + 1) 0 [] [] (by omega) (by omega)

/-- Witness for C4's theorem: on a server of always-empty pages with
reported total 5, the loop stops after its very first fetch, and with
bounded totals it terminates. -/
theorem get_list_all_stop_condition_witness :
    glaGo (fun _ _ => (⟨[], 0, 5, 500⟩ : Page Nat)) 1 7 [1, 2] [0] =
        some (⟨[1, 2], 0, 2, 2⟩, [0, 7]) ∧
      ∃ r, get_list_all (fun _ _ => (⟨[], 0, 5, 500⟩ : Page Nat)) 6 = some r := by
  constructor
  · exact (@get_list_all_stop_condition Nat).1
      (fun _ _ => ⟨[], 0, 5, 500⟩) 0 7 [1, 2] [0] rfl
  · exact (@get_list_all_stop_condition Nat).2.2.2
      (fun _ _ => ⟨[], 0, 5, 500⟩) 5 (fun _ _ => le_refl 5)


/-- C1 (code bug, concrete run): `_load_user` under a single 429 followed
by a 2xx — with rate-limit handling enabled the operation is invoked
`N + 1 = 2` times (`attemptsLog`), waits 2000 ms ≥ the server's
`Retry-After` of 2 s, and the retry installs the user; but the missing
`return` before `await this.handle_rate_limit(...)` lets control fall
through to `throw err`, so the call rejects with the original 429 response
instead of resolving. -/
theorem load_user_rate_limited_retry_rejects :
    (_load_user 3 (mkClient defaultOptions)
        (mkWorld [.fail ⟨429, some 2⟩, .ok (.whoami 7 none)])
        0 ("Bearer T") false 1).1 =
      .error (.http ⟨429, some 2⟩) ∧
    (_load_user 3 (mkClient defaultOptions)
        (mkWorld [.fail ⟨429, some 2⟩, .ok (.whoami 7 none)])
        0 ("Bearer T") false 1).2.1.user = some ⟨7, "Bearer T", none⟩ ∧
    (_load_user 3 (mkClient defaultOptions)
        (mkWorld [.fail ⟨429, some 2⟩, .ok (.whoami 7 none)])
        0 ("Bearer T") false 1).2.2.attemptsLog = [1, 1] ∧
    (_load_user 3 (mkClient defaultOptions)
        (mkWorld [.fail ⟨429, some 2⟩, .ok (.whoami 7 none)])
        0 ("Bearer T") false 1).2.2.waits = [2000] ∧
    (_load_user 3 (mkClient defaultOptions)
        (mkWorld [.fail ⟨429, some 2⟩, .ok (.whoami 7 none)])
        0 ("Bearer T") false 1).2.2.httpCount = 2 := by
  decide

/-- C2 (code bug, concrete run): `get_item` under one 500 followed by a
2xx with `handle_server_error = 3` — the retry waits 500 ms, runs with the
incremented attempt count and succeeds (two requests issued), but the
missing `return` before `await this.handle_internal_server_error(...)`
discards the retry's result and the final `throw err` rejects the call
with the original 500 response instead of resolving with the success. -/
theorem get_item_server_error_retry_rejects :
    (get_item 3 {mkClient defaultOptions with user := some ⟨1, "tok", none⟩}
        (mkWorld [.fail ⟨500, none⟩, .ok (.item 7)]) 0 ("/x") 1).1 =
      .error (.http ⟨500, none⟩) ∧
    (get_item 3 {mkClient defaultOptions with user := some ⟨1, "tok", none⟩}
        (mkWorld [.fail ⟨500, none⟩, .ok (.item 7)]) 0 ("/x") 1).2.2.attemptsLog =
      [1, 2] ∧
    (get_item 3 {mkClient defaultOptions with user := some ⟨1, "tok", none⟩}
        (mkWorld [.fail ⟨500, none⟩, .ok (.item 7)]) 0 ("/x") 1).2.2.waits =
      [500] ∧
    (get_item 3 {mkClient defaultOptions with user := some ⟨1, "tok", none⟩}
        (mkWorld [.fail ⟨500, none⟩, .ok (.item 7)]) 0 ("/x") 1).2.2.httpCount =
      2 := by
  decide

/-- Counterexample for C5: at a computed delay of exactly 0
(`expiration = now + 10000`) — which the claim's "delay ≤ 0" covers —
`set_user` does *not* trigger expired-session handling: `_session_expired`
tests strictly `< 0`, so the session is kept, persisted, a timer with
delay 0 is armed, and no listener fires. -/
theorem set_user_zero_delay_arms_timer :
    (set_user (mkClient defaultOptions) (mkWorld []) 20000
        ⟨1, "t", some 30000⟩).1 = .ok () ∧
    (set_user (mkClient defaultOptions) (mkWorld []) 20000
        ⟨1, "t", some 30000⟩).2.1.user = some ⟨1, "t", some 30000⟩ ∧
    (set_user (mkClient defaultOptions) (mkWorld []) 20000
        ⟨1, "t", some 30000⟩).2.2.timers = [0] ∧
    (set_user (mkClient defaultOptions) (mkWorld []) 20000
        ⟨1, "t", some 30000⟩).2.2.events = [] ∧
    storeGet (set_user (mkClient defaultOptions) (mkWorld []) 20000
        ⟨1, "t", some 30000⟩).2.2.tabStore ("phoenix-api-js-client-session") =
      some ⟨1, "t", some 30000⟩ := by
  decide

/-- C8 (code bug, concrete run): a session whose computed timer delay is
2147483648 ms (> 2147483647) makes `set_user` throw — the clamp branch
assigns to the `const timeout` — so no timer is armed and the call rejects
instead of completing normally; the session had already been persisted by
the preceding `_setItem`. -/
theorem set_user_overlong_delay_throws :
    (set_user (mkClient defaultOptions) (mkWorld []) 0
        ⟨1, "t", some 2147493648⟩).1 = .error .typeError ∧
    (set_user (mkClient defaultOptions) (mkWorld []) 0
        ⟨1, "t", some 2147493648⟩).2.2.timers = [] ∧
    storeGet (set_user (mkClient defaultOptions) (mkWorld []) 0
        ⟨1, "t", some 2147493648⟩).2.2.tabStore ("phoenix-api-js-client-session") =
      some ⟨1, "t", some 2147493648⟩ := by
  decide

/-- Counterexample for C6: with an error listener registered, a stored
anti-forgery state `S` and a redirect fragment carrying `state=S2`, the
bootstrap returns false and installs no session — but the mismatch is
*not* reported through the error listener (no event fires; the code only
logs a console warning). -/
theorem oauth_state_mismatch_no_error_event :
    (_oauth (mkClient defaultOptions)
        {mkWorld [] with hash := "#token_type=Bearer&access_token=T&state=S2",
                         stateVal := some ("S")} 0 ("rnd")).1 = .ok false ∧
    (_oauth (mkClient defaultOptions)
        {mkWorld [] with hash := "#token_type=Bearer&access_token=T&state=S2",
                         stateVal := some ("S")} 0 ("rnd")).2.1.user = none ∧
    (_oauth (mkClient defaultOptions)
        {mkWorld [] with hash := "#token_type=Bearer&access_token=T&state=S2",
                         stateVal := some ("S")} 0 ("rnd")).2.2.events = [] ∧
    (_oauth (mkClient defaultOptions)
        {mkWorld [] with hash := "#token_type=Bearer&access_token=T&state=S2",
                         stateVal := some ("S")} 0 ("rnd")).2.2.httpCount = 0 := by
  decide

/-- C6 (amended): given the redirect fragment
`#token_type=Bearer&access_token=T&state=S` with anti-forgery checking
enabled — when the stored state equals `S` the bootstrap installs a
session whose token is `"Bearer T"`; when the stored state differs the
bootstrap installs no session and returns false, reporting the mismatch
only via a console warning (nothing is thrown, and the registered error
event listener is not invoked). -/
theorem oauth_state_check_behavior :
    ((_oauth (mkClient defaultOptions)
        {mkWorld [.ok (.whoami 7 none)] with
          hash := "#token_type=Bearer&access_token=T&state=S",
          stateVal := some ("S")} 0 ("rnd")).1 = .ok true ∧
     (_oauth (mkClient defaultOptions)
        {mkWorld [.ok (.whoami 7 none)] with
          hash := "#token_type=Bearer&access_token=T&state=S",
          stateVal := some ("S")} 0 ("rnd")).2.1.user =
       some ⟨7, "Bearer T", none⟩) ∧
    ((_oauth (mkClient defaultOptions)
        {mkWorld [] with hash := "#token_type=Bearer&access_token=T&state=S",
                         stateVal := some ("S2")} 0 ("rnd")).1 = .ok false ∧
     (_oauth (mkClient defaultOptions)
        {mkWorld [] with hash := "#token_type=Bearer&access_token=T&state=S",
                         stateVal := some ("S2")} 0 ("rnd")).2.1.user = none ∧
     (_oauth (mkClient defaultOptions)
        {mkWorld [] with hash := "#token_type=Bearer&access_token=T&state=S",
                         stateVal := some ("S2")} 0 ("rnd")).2.2.events = []) := by
  decide

/-- Counterexample for C9: a session whose expiration (now + 5000) has not
yet elapsed but lies inside the 10 s skew — `set_user` immediately treats
it as expired, clears and never persists it, so a fresh client's
`init_user` restores nothing and returns false. -/
theorem round_trip_within_skew_lost :
    (set_user (mkClient defaultOptions) (mkWorld [.ok .empty]) 0
        ⟨1, "t", some 5000⟩).1 = .ok () ∧
    (set_user (mkClient defaultOptions) (mkWorld [.ok .empty]) 0
        ⟨1, "t", some 5000⟩).2.1.user = none ∧
    (init_user (mkClient defaultOptions)
        (set_user (mkClient defaultOptions) (mkWorld [.ok .empty]) 0
          ⟨1, "t", some 5000⟩).2.2 0 ("rnd")).1 = .ok false ∧
    (init_user (mkClient defaultOptions)
        (set_user (mkClient defaultOptions) (mkWorld [.ok .empty]) 0
          ⟨1, "t", some 5000⟩).2.2 0 ("rnd")).2.1.user = none := by
  decide

/-! ### Helper lemmas -/

theorem storeGet_storePut (m : List (String × Session)) (k : String)
    (v : Session) : storeGet (storePut m k v) k = some v := by
  simp [storeGet, storePut, List.find?]

theorem storeGet_storeDel (m : List (String × Session)) (k : String) :
    storeGet (storeDel m k) k = none := by
  induction m with
  | nil => rfl
  | cons p t ih =>
    by_cases h : p.1 = k
    · simpa [storeDel, List.filter_cons, h] using ih
    · simpa [storeDel, storeGet, List.filter_cons, List.find?_cons, h] using ih

theorem delete_access_token_ok (f : Nat) (c : Client) (w : World) (a : Nat)
    (d : ApiData) (rest : List HttpResp)
    (hut : c.uses_token = false) (henv : w.env = .ok d :: rest) :
    delete_access_token (f + 1) c w a =
      (.ok (), c, {w with env := rest, httpCount := w.httpCount + 1}) := by
  simp [delete_access_token, hut, takeResp, henv, _phoenix_url]

theorem sign_out_ok (c : Client) (w : World) (se : Bool) (d : ApiData)
    (rest : List HttpResp)
    (hid : c.options.id_token_sign_out = false)
    (hut : c.uses_token = false) (henv : w.env = .ok d :: rest) :
    sign_out c w se =
      post_sign_out c {w with env := rest, httpCount := w.httpCount + 1} se := by
  have hlen : w.env.length = rest.length + 1 := by rw [henv]; rfl
  rw [sign_out, if_neg (by simp [hid]), hlen,
    delete_access_token_ok (rest.length + 1) c w 1 d rest hut henv]

theorem handle_expired_session_ok (c : Client) (w : World) (d : ApiData)
    (rest : List HttpResp)
    (hid : c.options.id_token_sign_out = false)
    (hut : c.uses_token = false) (henv : w.env = .ok d :: rest)
    (hon : c.onSessionExpired = true) :
    handle_expired_session c w =
      ({c with user := none},
        fire (_removeItem c {w with env := rest, httpCount := w.httpCount + 1}
          c.options.session_name) .sessionExpired) := by
  rw [handle_expired_session, sign_out_ok c w true d rest hid hut henv]
  simp [post_sign_out, _removeItem, fire, hon]

theorem _oauth_user_present (c : Client) (w : World) (now : Int)
    (rnd : String) (h : c.user.isSome = true) :
    _oauth c w now rnd = (.ok true, c, w) := by
  simp [_oauth, h]

/-- C5 (amended): `set_user` with a nonzero expiration whose computed delay
`expiration − now − 10000` is strictly negative immediately triggers
expired-session handling instead of arming a timer: the session is cleared,
the `session-expired` listener fires, the `logged-out` listener does not
fire, no timer is armed, and the session is not persisted (the token
revocation request is scripted to succeed). -/
theorem set_user_past_expiration_expires
    (c : Client) (w : World) (now : Int) (u : Session) (exp : Int)
    (d : ApiData) (rest : List HttpResp)
    (hexp : u.expiration = some exp) (h0 : exp ≠ 0)
    (hpast : exp - now - 10000 < 0)
    (hid : c.options.id_token_sign_out = false)
    (hut : c.uses_token = false)
    (henv : w.env = .ok d :: rest)
    (hon : c.onSessionExpired = true)
    (hev : w.events = []) (htm : w.timers = []) :
    (set_user c w now u).1 = .ok () ∧
    (set_user c w now u).2.1.user = none ∧
    (set_user c w now u).2.2.events = [.sessionExpired] ∧
    (set_user c w now u).2.2.timers = [] ∧
    _getItem (set_user c w now u).2.1 (set_user c w now u).2.2
      c.options.session_name = none := by
  have hhe := handle_expired_session_ok
    {c with user := some u, expiration_timeout := exp} w d rest hid hut henv hon
  have hsu : set_user c w now u =
      (.ok (), {c with user := none, expiration_timeout := exp},
        fire (_removeItem c {w with env := rest, httpCount := w.httpCount + 1}
          c.options.session_name) .sessionExpired) := by
    simp only [set_user, hexp]
    rw [if_neg h0, if_pos (show _session_expired
        {c with user := some u, expiration_timeout := exp} now = true by
      simp [_session_expired, hpast]), hhe]
    rfl
  refine ⟨by rw [hsu], by rw [hsu], ?_, ?_, ?_⟩
  · rw [hsu]
    simp only [fire, _removeItem]
    split <;> simp [hev]
  · rw [hsu]
    simp only [fire, _removeItem]
    split <;> simp [htm]
  · rw [hsu]
    simp only [_getItem, fire, _removeItem]
    by_cases htab : c.options.tab_scope = true <;>
      simp [htab, storeGet_storeDel]

/-- Witness for C5: a concrete run — expiration 30000 at local time 20001
(delay −1) clears the session, fires only `session-expired`, arms no
timer and leaves nothing persisted. -/
theorem set_user_past_expiration_expires_witness :
    (set_user (mkClient defaultOptions) (mkWorld [.ok .empty]) 20001
        ⟨1, "t", some 30000⟩).1 = .ok () ∧
    (set_user (mkClient defaultOptions) (mkWorld [.ok .empty]) 20001
        ⟨1, "t", some 30000⟩).2.1.user = none ∧
    (set_user (mkClient defaultOptions) (mkWorld [.ok .empty]) 20001
        ⟨1, "t", some 30000⟩).2.2.events = [.sessionExpired] ∧
    (set_user (mkClient defaultOptions) (mkWorld [.ok .empty]) 20001
        ⟨1, "t", some 30000⟩).2.2.timers = [] ∧
    _getItem (set_user (mkClient defaultOptions) (mkWorld [.ok .empty]) 20001
        ⟨1, "t", some 30000⟩).2.1
      (set_user (mkClient defaultOptions) (mkWorld [.ok .empty]) 20001
        ⟨1, "t", some 30000⟩).2.2
      (mkClient defaultOptions).options.session_name = none :=
  set_user_past_expiration_expires (mkClient defaultOptions)
    (mkWorld [.ok .empty]) 20001 ⟨1, "t", some 30000⟩ 30000 .empty []
    rfl (by decide) (by decide) rfl rfl rfl rfl rfl rfl

/-- C7: a request through `call_api` failing with 401 while the local clock
considers the session expired (`expiration_timeout − now − 10000 < 0`)
triggers forced expiry handling — the user is cleared and only the
`session-expired` listener fires — and the call *resolves* with the empty
body `{}` instead of rejecting; exactly two requests are issued (the failed
call and the token revocation), so the 401 request is never retried. -/
theorem call_api_401_expired_resolves_empty
    (c : Client) (w : World) (now : Int) (method uri : String)
    (u : Session) (e : HttpErr) (d : ApiData) (rest : List HttpResp)
    (hu : c.user = some u)
    (h401 : e.status = 401)
    (hexp : c.expiration_timeout - now - 10000 < 0)
    (henv : w.env = .fail e :: .ok d :: rest)
    (hid : c.options.id_token_sign_out = false)
    (hut : c.uses_token = false)
    (hon : c.onSessionExpired = true)
    (hev : w.events = []) :
    (call_api c w now method uri false ("")).1 = .ok .empty ∧
    (call_api c w now method uri false ("")).2.1.user = none ∧
    (call_api c w now method uri false ("")).2.2.events = [.sessionExpired] ∧
    (call_api c w now method uri false ("")).2.2.httpCount = w.httpCount + 2 := by
  have hhe := handle_expired_session_ok c
    {w with env := .ok d :: rest, httpCount := w.httpCount + 1} d rest
    hid hut rfl hon
  have hurl : _phoenix_url c uri false =
      .ok (("https://api.phone.com/v4/accounts/") ++ toString u.id ++ uri) := by
    simp [_phoenix_url, hu]
  have hcond : e.status = 401 ∧ _session_expired c now = true :=
    ⟨h401, by simp [_session_expired, hexp]⟩
  have hca : call_api c w now method uri false ("") =
      (.ok .empty, {c with user := none},
        fire (_removeItem c
          {w with env := rest, httpCount := w.httpCount + 1 + 1}
          c.options.session_name) .sessionExpired) := by
    simp only [call_api, hurl, takeResp, henv]
    rw [if_pos hcond]
    rw [hhe]
  refine ⟨by rw [hca], by rw [hca], ?_, ?_⟩
  · rw [hca]
    simp only [fire, _removeItem]
    split <;> simp [hev]
  · rw [hca]
    simp only [fire, _removeItem]
    split <;> rfl

/-- Witness for C7: a concrete 401 on an expired session resolves with `{}`,
clears the user, fires only `session-expired`, and issues exactly two
requests. -/
theorem call_api_401_expired_resolves_empty_witness :
    (call_api {mkClient defaultOptions with user := some ⟨1, "tok", none⟩, expiration_timeout := 1000}
      (mkWorld [.fail ⟨401, none⟩, .ok .empty]) 99999 ("get") ("/x") false ("")).1 =
      .ok .empty ∧
    (call_api {mkClient defaultOptions with user := some ⟨1, "tok", none⟩, expiration_timeout := 1000}
      (mkWorld [.fail ⟨401, none⟩, .ok .empty]) 99999 ("get") ("/x")
        false ("")).2.1.user = none ∧
    (call_api {mkClient defaultOptions with user := some ⟨1, "tok", none⟩, expiration_timeout := 1000}
      (mkWorld [.fail ⟨401, none⟩, .ok .empty]) 99999 ("get") ("/x")
        false ("")).2.2.events = [.sessionExpired] ∧
    (call_api {mkClient defaultOptions with user := some ⟨1, "tok", none⟩, expiration_timeout := 1000}
      (mkWorld [.fail ⟨401, none⟩, .ok .empty]) 99999 ("get") ("/x")
        false ("")).2.2.httpCount =
      (mkWorld [.fail ⟨401, none⟩, .ok .empty]).httpCount + 2 :=
  call_api_401_expired_resolves_empty
    {mkClient defaultOptions with user := some ⟨1, "tok", none⟩, expiration_timeout := 1000}
    (mkWorld [.fail ⟨401, none⟩, .ok .empty]) 99999 ("get") ("/x")
    ⟨1, "tok", none⟩ ⟨401, none⟩ .empty []
    rfl rfl (by decide) rfl rfl rfl rfl rfl

/-- The persisting branch of `set_user`: a nonzero expiration whose delay is
neither elapsed (≥ 0) nor beyond the maximum timer delay stores the session
and arms the timer. -/
theorem set_user_arms_timer (c : Client) (w : World) (now : Int) (u : Session)
    (exp : Int) (hexp : u.expiration = some exp) (h0 : exp ≠ 0)
    (hfresh : ¬ exp - now - 10000 < 0)
    (hsmall : ¬ exp - now - 10000 > 2147483647) :
    set_user c w now u =
      (.ok (), {c with user := some u, expiration_timeout := exp},
        {_setItem {c with user := some u, expiration_timeout := exp} w
            c.options.session_name u with
          timers := (_setItem {c with user := some u, expiration_timeout := exp}
            w c.options.session_name u).timers ++ [exp - now - 10000]}) := by
  simp only [set_user, hexp]
  rw [if_neg h0, if_neg (show ¬ _session_expired
      {c with user := some u, expiration_timeout := exp} now = true by
    simp [_session_expired, hfresh]), if_neg hsmall]

/-- Reading back the key just persisted by the storing branch. -/
theorem set_user_then_getItem (c : Client) (w : World) (now : Int)
    (u : Session) (exp : Int) (hexp : u.expiration = some exp) (h0 : exp ≠ 0)
    (hfresh : ¬ exp - now - 10000 < 0)
    (hsmall : ¬ exp - now - 10000 > 2147483647) :
    _getItem c (set_user c w now u).2.2 c.options.session_name = some u := by
  rw [set_user_arms_timer c w now u exp hexp h0 hfresh hsmall]
  simp only [_getItem, _setItem]
  by_cases htab : c.options.tab_scope = true <;> simp [htab, storeGet_storePut]

/-- C9 (amended): a session with a nonzero expiration at least the 10 s skew
in the future (and within the maximum timer delay) at both persist and
restore time round-trips: `set_user` persists it, and a fresh client with
the same storage key and scope restores an equivalent active session (same
id, token and expiration) through `init_user` without issuing any HTTP
request. -/
theorem round_trip_restores_session
    (c c2 : Client) (w : World) (now1 now2 : Int) (u : Session) (exp : Int)
    (rnd : String)
    (hexp : u.expiration = some exp) (h0 : exp ≠ 0)
    (hname : c2.options.session_name = c.options.session_name)
    (hscope : c2.options.tab_scope = c.options.tab_scope)
    (hfresh1 : ¬ exp - now1 - 10000 < 0)
    (hsmall1 : ¬ exp - now1 - 10000 > 2147483647)
    (hfresh2 : ¬ exp - now2 - 10000 < 0)
    (hsmall2 : ¬ exp - now2 - 10000 > 2147483647) :
    (set_user c w now1 u).1 = .ok () ∧
    (init_user c2 (set_user c w now1 u).2.2 now2 rnd).1 = .ok true ∧
    (init_user c2 (set_user c w now1 u).2.2 now2 rnd).2.1.user = some u ∧
    (init_user c2 (set_user c w now1 u).2.2 now2 rnd).2.2.env = w.env ∧
    (init_user c2 (set_user c w now1 u).2.2 now2 rnd).2.2.httpCount =
      w.httpCount := by
  have hget2 : _getItem c2 (set_user c w now1 u).2.2 c2.options.session_name =
      some u := by
    have hget1 := set_user_then_getItem c w now1 u exp hexp h0 hfresh1 hsmall1
    simp only [_getItem, hname, hscope] at hget1 ⊢
    exact hget1
  have hsu2 := set_user_arms_timer c2 (set_user c w now1 u).2.2 now2 u exp
    hexp h0 hfresh2 hsmall2
  have hmidenv : (set_user c w now1 u).2.2.env = w.env := by
    rw [set_user_arms_timer c w now1 u exp hexp h0 hfresh1 hsmall1]
    simp only [_setItem]
    by_cases htab : c.options.tab_scope = true <;> simp [htab]
  have hmidhttp : (set_user c w now1 u).2.2.httpCount = w.httpCount := by
    rw [set_user_arms_timer c w now1 u exp hexp h0 hfresh1 hsmall1]
    simp only [_setItem]
    by_cases htab : c.options.tab_scope = true <;> simp [htab]
  have hinit : init_user c2 (set_user c w now1 u).2.2 now2 rnd =
      (.ok true, {c2 with user := some u, expiration_timeout := exp},
        {_setItem {c2 with user := some u, expiration_timeout := exp}
            (set_user c w now1 u).2.2 c2.options.session_name u with
          timers := (_setItem {c2 with user := some u, expiration_timeout := exp}
            (set_user c w now1 u).2.2 c2.options.session_name u).timers ++
            [exp - now2 - 10000]}) := by
    simp only [init_user, hget2, hsu2]
    rw [_oauth_user_present {c2 with user := some u, expiration_timeout := exp}
      _ now2 rnd rfl]
    rfl
  refine ⟨by rw [set_user_arms_timer c w now1 u exp hexp h0 hfresh1 hsmall1],
    by rw [hinit], by rw [hinit], ?_, ?_⟩
  · rw [hinit]
    simp only [_setItem]
    by_cases htab : c2.options.tab_scope = true <;> simp [htab, hmidenv]
  · rw [hinit]
    simp only [_setItem]
    by_cases htab : c2.options.tab_scope = true <;> simp [htab, hmidhttp]

/-- Witness for C9: a concrete round trip — persist at time 0 a session
expiring at 100000, restore with a fresh client sharing key and scope:
`init_user` resolves true with the same session and no HTTP traffic. -/
theorem round_trip_restores_session_witness :
    (set_user (mkClient defaultOptions) (mkWorld []) 0
        ⟨1, "t", some 100000⟩).1 = .ok () ∧
    (init_user (mkClient defaultOptions)
        (set_user (mkClient defaultOptions) (mkWorld []) 0
          ⟨1, "t", some 100000⟩).2.2 0 ("rnd")).1 = .ok true ∧
    (init_user (mkClient defaultOptions)
        (set_user (mkClient defaultOptions) (mkWorld []) 0
          ⟨1, "t", some 100000⟩).2.2 0 ("rnd")).2.1.user =
      some ⟨1, "t", some 100000⟩ ∧
    (init_user (mkClient defaultOptions)
        (set_user (mkClient defaultOptions) (mkWorld []) 0
          ⟨1, "t", some 100000⟩).2.2 0 ("rnd")).2.2.env = (mkWorld []).env ∧
    (init_user (mkClient defaultOptions)
        (set_user (mkClient defaultOptions) (mkWorld []) 0
          ⟨1, "t", some 100000⟩).2.2 0 ("rnd")).2.2.httpCount =
      (mkWorld []).httpCount :=
  round_trip_restores_session (mkClient defaultOptions) (mkClient defaultOptions)
    (mkWorld []) 0 0 ⟨1, "t", some 100000⟩ 100000 ("rnd")
    rfl (by decide) rfl rfl (by decide) (by decide) (by decide) (by decide)

/-- C10: every account-scoped resource operation invoked with no active
session (`user = null`) throws a `TypeError` while building the URL —
reading `user["id"]` — before any HTTP request is issued (the request
count is unchanged), rather than producing an error result or sending an
unauthenticated request; and with no user and no explicit token the
authorization-header builder returns the empty header object. -/
theorem null_user_ops_type_error
    (c : Client) (w : World) (now : Int) (uri : String) (fuel lim off : Nat)
    (body : ApiData) (hu : c.user = none) :
    ((get_item (fuel + 1) c w now uri 1).1 = .error .typeError ∧
      (get_item (fuel + 1) c w now uri 1).2.2.httpCount = w.httpCount) ∧
    ((get_list (fuel + 1) c w now uri lim off false 1).1 = .error .typeError ∧
      (get_list (fuel + 1) c w now uri lim off false 1).2.2.httpCount =
        w.httpCount) ∧
    ((delete_item (fuel + 1) c w now uri 1).1 = .error .typeError ∧
      (delete_item (fuel + 1) c w now uri 1).2.2.httpCount = w.httpCount) ∧
    ((download_item (fuel + 1) c w now uri 1).1 = .error .typeError ∧
      (download_item (fuel + 1) c w now uri 1).2.2.httpCount = w.httpCount) ∧
    ((replace_item (fuel + 1) c w now uri body 1).1 = .error .typeError ∧
      (replace_item (fuel + 1) c w now uri body 1).2.2.httpCount =
        w.httpCount) ∧
    ((patch_item (fuel + 1) c w now uri body 1).1 = .error .typeError ∧
      (patch_item (fuel + 1) c w now uri body 1).2.2.httpCount = w.httpCount) ∧
    ((create_item (fuel + 1) c w now uri body 1).1 = .error .typeError ∧
      (create_item (fuel + 1) c w now uri body 1).2.2.httpCount =
        w.httpCount) ∧
    _phoenix_auth_headers c ("") = [] := by
  refine ⟨⟨?_, ?_⟩, ⟨?_, ?_⟩, ⟨?_, ?_⟩, ⟨?_, ?_⟩, ⟨?_, ?_⟩, ⟨?_, ?_⟩,
    ⟨?_, ?_⟩, ?_⟩ <;>
    simp [get_item, get_list, delete_item, download_item, replace_item,
      patch_item, create_item, call_api, _phoenix_url, hu,
      _phoenix_auth_headers, userTokenTruthy]

/-- Witness for C10: a concrete client with no session — every operation
rejects with a `TypeError`, no request is issued, and the header builder
returns `{}`. -/
theorem null_user_ops_type_error_witness :
    ((get_item 1 (mkClient defaultOptions) (mkWorld []) 0 ("/x") 1).1 =
        .error .typeError ∧
      (get_item 1 (mkClient defaultOptions) (mkWorld []) 0 ("/x")
        1).2.2.httpCount = (mkWorld []).httpCount) ∧
    ((get_list 1 (mkClient defaultOptions) (mkWorld []) 0 ("/x") 25 0
        false 1).1 = .error .typeError ∧
      (get_list 1 (mkClient defaultOptions) (mkWorld []) 0 ("/x") 25 0
        false 1).2.2.httpCount = (mkWorld []).httpCount) ∧
    ((delete_item 1 (mkClient defaultOptions) (mkWorld []) 0 ("/x") 1).1 =
        .error .typeError ∧
      (delete_item 1 (mkClient defaultOptions) (mkWorld []) 0 ("/x")
        1).2.2.httpCount = (mkWorld []).httpCount) ∧
    ((download_item 1 (mkClient defaultOptions) (mkWorld []) 0 ("/x") 1).1 =
        .error .typeError ∧
      (download_item 1 (mkClient defaultOptions) (mkWorld []) 0 ("/x")
        1).2.2.httpCount = (mkWorld []).httpCount) ∧
    ((replace_item 1 (mkClient defaultOptions) (mkWorld []) 0 ("/x")
        .empty 1).1 = .error .typeError ∧
      (replace_item 1 (mkClient defaultOptions) (mkWorld []) 0 ("/x")
        .empty 1).2.2.httpCount = (mkWorld []).httpCount) ∧
    ((patch_item 1 (mkClient defaultOptions) (mkWorld []) 0 ("/x")
        .empty 1).1 = .error .typeError ∧
      (patch_item 1 (mkClient defaultOptions) (mkWorld []) 0 ("/x")
        .empty 1).2.2.httpCount = (mkWorld []).httpCount) ∧
    ((create_item 1 (mkClient defaultOptions) (mkWorld []) 0 ("/x")
        .empty 1).1 = .error .typeError ∧
      (create_item 1 (mkClient defaultOptions) (mkWorld []) 0 ("/x")
        .empty 1).2.2.httpCount = (mkWorld []).httpCount) ∧
    _phoenix_auth_headers (mkClient defaultOptions) ("") = [] :=
  null_user_ops_type_error (mkClient defaultOptions) (mkWorld []) 0 ("/x")
    0 25 0 .empty rfl
